import Mathlib

/-!
Shallow embedding of the joystick/gamepad input subsystem
(src/inputsystem/joystick_sdl.cpp) and the audio capture ring buffer
(src/engine/audio/voice_record_sdl.cpp).

SDL calls are modelled through an `Env` oracle giving the outcome of each
library call; externally visible effects (device opens/closes, posted host
events, haptic commands, diagnostics) are recorded in a trace of `Effect`s.
Machine floats (convar values, rumble strengths) are modelled as rationals;
the C float-to-int conversion is truncation toward zero (`cTrunc`).
-/

/-- Truncation toward zero, as the C cast from a floating value to `int`. -/
def cTrunc (q : ℚ) : Int :=
  if q < 0 then -(Int.floor (-q)) else Int.floor q

/-- Host button codes returned by `ControllerButtonToButtonCode`.
`sentinel` is `BUTTON_CODE_NONE`; `joystickButton n` is `JOYSTICK_BUTTON(0, n)`
(numerically `KEY_XBUTTON_A` .. `KEY_XBUTTON_Y` for n = 0..3). -/
inductive ButtonCode where
  | sentinel
  | joystickButton (n : Int)
  | xbBack
  | xbStart
  | xbStick1
  | xbStick2
  | xbLeftShoulder
  | xbRightShoulder
  | xbUp
  | xbDown
  | xbLeft
  | xbRight
  | xbLTrigger
  | xbRTrigger
deriving DecidableEq

/-- Host analog channels returned by `ControllerAxisToAnalogCode`
(`JOYSTICK_AXIS(0, JOY_AXIS_*)`); `ANALOG_CODE_INVALID` is `Option.none`. -/
inductive AnalogCode where
  | joyAxisX
  | joyAxisY
  | joyAxisU
  | joyAxisR
  | joyAxisZ
deriving DecidableEq

/-- `ControllerButtonToButtonCode`: fixed lookup table from SDL3
`SDL_GamepadButton` values (SOUTH=0 .. DPAD_RIGHT=14) to host button codes;
everything else falls through to `BUTTON_CODE_NONE` (`sentinel`). -/
def ControllerButtonToButtonCode (button : Int) : ButtonCode :=
  if button = 0 ∨ button = 1 ∨ button = 2 ∨ button = 3 then
    ButtonCode.joystickButton button
  else if button = 4 then ButtonCode.xbBack
  else if button = 6 then ButtonCode.xbStart
  else if button = 5 then ButtonCode.xbBack
  else if button = 7 then ButtonCode.xbStick1
  else if button = 8 then ButtonCode.xbStick2
  else if button = 9 then ButtonCode.xbLeftShoulder
  else if button = 10 then ButtonCode.xbRightShoulder
  else if button = 11 then ButtonCode.xbUp
  else if button = 12 then ButtonCode.xbDown
  else if button = 13 then ButtonCode.xbLeft
  else if button = 14 then ButtonCode.xbRight
  else ButtonCode.sentinel

/-- `ControllerAxisToAnalogCode`: SDL3 `SDL_GamepadAxis` values
(LEFTX=0, LEFTY=1, RIGHTX=2, RIGHTY=3, LEFT_TRIGGER=4, RIGHT_TRIGGER=5);
both triggers map to `JOY_AXIS_Z`; anything else is `ANALOG_CODE_INVALID`. -/
def ControllerAxisToAnalogCode (axis : Int) : Option AnalogCode :=
  if axis = 0 then some AnalogCode.joyAxisX
  else if axis = 1 then some AnalogCode.joyAxisY
  else if axis = 2 then some AnalogCode.joyAxisU
  else if axis = 3 then some AnalogCode.joyAxisR
  else if axis = 5 ∨ axis = 4 then some AnalogCode.joyAxisZ
  else Option.none

/-- The single `JoystickInfo_t` slot `m_pJoystickInfo[0]`.  `hasDevice` /
`hasHaptic` model `m_pDevice != NULL` / `m_pHaptic != NULL`. -/
structure JoystickInfo where
  deviceId : Int
  hasDevice : Bool
  hasHaptic : Bool
  buttonCount : Int
  rumbleEnabled : Bool
  currentRumble : ℚ

/-- The analog arrays of `m_InputState` (per analog channel). -/
structure InputState where
  analogValue : AnalogCode → Int
  analogDelta : AnalogCode → Int

/-- The joystick-related state of `CInputSystem`, plus the `joy_active`
convar.  `ltRepeats`/`rtRepeats` are the `m_appXKeys[0][keyIndex].repeats`
counters for the two synthesized trigger buttons. -/
structure ISState where
  info : JoystickInfo
  joyActive : Int
  joystickCount : Int
  xController : Bool
  ltRepeats : Int
  rtRepeats : Int
  inputState : InputState

/-- Outcomes of the SDL library calls and the values of the remaining
convars, treated as an oracle environment. -/
structure Env where
  isGamepad : Int → Bool
  openJoystickOk : Int → Bool
  openGamepadOk : Int → Bool
  hapticOk : Int → Bool
  attached : List Int
  joystickOn : Bool
  playRumbleOk : ℚ → Bool
  axisButtonThreshold : ℚ
  axisDeadzone : ℚ

/-- Externally visible effects, recorded in order of occurrence. -/
inductive Effect where
  | logMsg
  | openJoystickProbe (id : Int)
  | closeJoystickProbe (id : Int)
  | openGamepad (id : Int)
  | closeGamepad (id : Int)
  | closeHaptic
  | enableInput (flag : Bool)
  | playRumble (strength : ℚ)
  | stopRumble
  | postPressed (code : ButtonCode)
  | postReleased (code : ButtonCode)
  | postAnalog (code : AnalogCode) (value : Int)
deriving DecidableEq

/-- `SDL_GAMEPAD_BUTTON_MAX` (SDL3 button count), stored in
`info.m_nButtonCount` on open. -/
def sdlGamepadButtonMax : Int := 26

/-- `CInputSystem::JoystickHotplugRemoved` (joystick_sdl.cpp:357-388). -/
def JoystickHotplugRemoved (joystickId : Int) (s : ISState) : ISState × List Effect :=
  if s.info.deviceId ≠ joystickId then
    (s, [Effect.logMsg])
  else if ¬ s.info.hasDevice then
    ({ s with info := { s.info with deviceId := -1 } }, [Effect.logMsg])
  else
    ({ s with
        joystickCount := 0
        xController := false
        info := { s.info with
                    hasHaptic := false
                    hasDevice := false
                    buttonCount := 0
                    deviceId := -1
                    rumbleEnabled := false } },
     [Effect.enableInput false, Effect.closeHaptic, Effect.closeGamepad joystickId,
      Effect.logMsg])

/-- The probe open/close of `SDL_OpenJoystick`/`SDL_CloseJoystick` in
`JoystickHotplugAdded` (joystick_sdl.cpp:284-292). -/
def probeActs (joystickID : Int) : List Effect :=
  [Effect.openJoystickProbe joystickID, Effect.closeJoystickProbe joystickID]

/-- The tail of `JoystickHotplugAdded` from the `Msg("Initializing ...")`
onward (joystick_sdl.cpp:323-355): `p` is the state/trace after the optional
`JoystickHotplugRemoved` of the previously active device. -/
def hotplugOpen (env : Env) (joystickID : Int) (p : ISState × List Effect) :
    ISState × List Effect :=
  if ¬ env.openGamepadOk joystickID then
    (p.1, probeActs joystickID ++ p.2 ++ [Effect.logMsg, Effect.logMsg])
  else
    ({ p.1 with
        info := { deviceId := joystickID
                  hasDevice := true
                  hasHaptic := env.hapticOk joystickID
                  buttonCount := sdlGamepadButtonMax
                  rumbleEnabled := false
                  currentRumble := p.1.info.currentRumble }
        joystickCount := 1
        xController := true
        joyActive := -1 },
     probeActs joystickID ++ p.2 ++ [Effect.logMsg, Effect.openGamepad joystickID]
       ++ (if env.hapticOk joystickID then [] else [Effect.logMsg])
       ++ [Effect.enableInput true])

/-- `CInputSystem::JoystickHotplugAdded` (joystick_sdl.cpp:268-355). -/
def JoystickHotplugAdded (env : Env) (joystickID : Int) (s : ISState) :
    ISState × List Effect :=
  if ¬ env.isGamepad joystickID then
    (s, [Effect.logMsg])
  else if ¬ env.openJoystickOk joystickID then
    (s, [Effect.logMsg])
  else if s.joyActive < 0 ∧ s.info.deviceId ≠ -1 then
    (s, probeActs joystickID ++ [Effect.logMsg])
  else if 0 ≤ s.joyActive ∧ s.joyActive ≠ joystickID then
    (s, probeActs joystickID ++ [Effect.logMsg])
  else if s.info.deviceId ≠ -1 ∧ s.info.deviceId = joystickID then
    (s, probeActs joystickID)
  else
    hotplugOpen env joystickID
      (if s.info.deviceId ≠ -1 then JoystickHotplugRemoved s.info.deviceId s
       else (s, []))

/-- The loop of `SearchForDevice` (joystick_sdl.cpp:52-59): for each
attached joystick that `SDL_OpenJoystick` can open (the handle is kept,
recorded as a probe effect), feed it to `JoystickHotplugAdded`. -/
def searchLoop (env : Env) (ids : List Int) (s : ISState) : ISState × List Effect :=
  match ids with
  | [] => (s, [])
  | i :: rest =>
      if env.openJoystickOk i then
        let r := JoystickHotplugAdded env i s
        let r2 := searchLoop env rest r.1
        (r2.1, Effect.openJoystickProbe i :: r.2 ++ r2.2)
      else searchLoop env rest s

/-- `SearchForDevice` (joystick_sdl.cpp:33-60): with `joy_active < 0` it
calls `JoystickHotplugAdded(0)` with the literal id 0; otherwise it
enumerates attached joysticks, opening each and feeding it to
`JoystickHotplugAdded`. -/
def SearchForDevice (env : Env) (s : ISState) : ISState × List Effect :=
  if s.joyActive < 0 then
    JoystickHotplugAdded env 0 s
  else
    searchLoop env env.attached s

/-- `CInputSystem::JoystickButtonPress` (joystick_sdl.cpp:390-401): note no
check of the translated code against `BUTTON_CODE_NONE`. -/
def JoystickButtonPress (joystickId button : Int) (s : ISState) :
    ISState × List Effect :=
  if s.info.deviceId ≠ joystickId then
    (s, [Effect.logMsg])
  else
    (s, [Effect.postPressed (ControllerButtonToButtonCode button)])

/-- `CInputSystem::JoystickButtonRelease` (joystick_sdl.cpp:403-413). -/
def JoystickButtonRelease (joystickId button : Int) (s : ISState) :
    ISState × List Effect :=
  if s.info.deviceId ≠ joystickId then
    (s, [])
  else
    (s, [Effect.postReleased (ControllerButtonToButtonCode button)])

/-- The deadzone filter of `JoystickAxisMotion` (joystick_sdl.cpp:464-468). -/
def effectiveValue (deadzone : ℚ) (value : Int) : Int :=
  if |value| < cTrunc (deadzone * 32767) then 0 else value

/-- Write the repeat counter of the synthesized trigger button. -/
def setRepeats (s : ISState) (b : ButtonCode) (n : Int) : ISState :=
  if b = ButtonCode.xbRTrigger then { s with rtRepeats := n }
  else { s with ltRepeats := n }

/-- The synthesized trigger-button block of `JoystickAxisMotion`
(joystick_sdl.cpp:442-462): above the threshold, a press is posted only on
the transition from `repeats == 0` and the counter is incremented; at or
below the threshold a release is posted unconditionally and the counter is
reset. -/
def triggerButtonStep (pressThreshold value : Int) (buttonCode : ButtonCode)
    (s : ISState) : ISState × List Effect :=
  let repeats :=
    if buttonCode = ButtonCode.xbRTrigger then s.rtRepeats else s.ltRepeats
  if value > pressThreshold then
    (setRepeats s buttonCode (repeats + 1),
     if repeats < 1 then [Effect.postPressed buttonCode] else [])
  else
    (setRepeats s buttonCode 0, [Effect.postReleased buttonCode])

/-- The analog tail of `JoystickAxisMotion` (joystick_sdl.cpp:470-477):
store the new value and delta for the channel, and post an analog event
iff the delta is nonzero.  `v` is the value after the deadzone filter. -/
def analogUpdate (code : AnalogCode) (v : Int) (p : ISState × List Effect) :
    ISState × List Effect :=
  let delta := v - p.1.inputState.analogValue code
  let s2 : ISState :=
    { p.1 with
        inputState :=
          { analogValue := fun c =>
              if c = code then v else p.1.inputState.analogValue c
            analogDelta := fun c =>
              if c = code then delta else p.1.inputState.analogDelta c } }
  if delta ≠ 0 then (s2, p.2 ++ [Effect.postAnalog code v]) else (s2, p.2)

/-- `CInputSystem::JoystickAxisMotion` (joystick_sdl.cpp:416-477): the
`buttonCode != BUTTON_CODE_NONE` gate amounts to dispatching on the two
trigger axes (RIGHT_TRIGGER=5 -> `KEY_XBUTTON_RTRIGGER`, LEFT_TRIGGER=4 ->
`KEY_XBUTTON_LTRIGGER`). -/
def JoystickAxisMotion (env : Env) (joystickId axis value : Int) (s : ISState) :
    ISState × List Effect :=
  if s.info.deviceId ≠ joystickId then
    (s, [])
  else
    match ControllerAxisToAnalogCode axis with
    | Option.none => (s, [Effect.logMsg])
    | some code =>
      analogUpdate code (effectiveValue env.axisDeadzone value)
        (if axis = 5 then
           triggerButtonStep (cTrunc (env.axisButtonThreshold * 32767)) value
             ButtonCode.xbRTrigger s
         else if axis = 4 then
           triggerButtonStep (cTrunc (env.axisButtonThreshold * 32767)) value
             ButtonCode.xbLTrigger s
         else (s, []))

/-- `CInputSystem::SetXDeviceRumble` (joystick_sdl.cpp:525-569).
`env.joystickOn` models `joystickVar.IsValid() && joystickVar.GetBool()`. -/
def SetXDeviceRumble (env : Env) (fLeftMotor fRightMotor : ℚ) (s : ISState) :
    ISState × List Effect :=
  if s.info.deviceId < 0 ∨ ¬ s.info.hasHaptic then
    (s, [])
  else if (fLeftMotor + fRightMotor) / 2 < 1/100 ∨ ¬ env.joystickOn then
    if s.info.rumbleEnabled then
      ({ s with info := { s.info with rumbleEnabled := false, currentRumble := 0 } },
       [Effect.stopRumble])
    else (s, [])
  else if s.info.rumbleEnabled ∧
      |s.info.currentRumble - (fLeftMotor + fRightMotor) / 2| < 1/100 then
    (s, [])
  else
    ({ s with info := { s.info with
                          rumbleEnabled := true
                          currentRumble := (fLeftMotor + fRightMotor) / 2 } },
     Effect.playRumble ((fLeftMotor + fRightMotor) / 2) ::
       (if env.playRumbleOk ((fLeftMotor + fRightMotor) / 2) then []
        else [Effect.logMsg]))

/-- Attach/detach notifications (`SDL_EVENT_GAMEPAD_ADDED` / `_REMOVED`). -/
inductive Notif where
  | added (id : Int)
  | removed (id : Int)

/-- One notification as dispatched by `JoystickSDLWatcher`
(joystick_sdl.cpp:142-148): a removal is followed by `SearchForDevice`. -/
def processNotif (env : Env) (n : Notif) (s : ISState) : ISState × List Effect :=
  match n with
  | Notif.added id => JoystickHotplugAdded env id s
  | Notif.removed id =>
      let r1 := JoystickHotplugRemoved id s
      let r2 := SearchForDevice env r1.1
      (r2.1, r1.2 ++ r2.2)

/-- Process a sequence of notifications, concatenating the traces. -/
def runNotifs (env : Env) (ns : List Notif) (s : ISState) : ISState × List Effect :=
  match ns with
  | [] => (s, [])
  | n :: rest =>
      let r := processNotif env n s
      let r2 := runNotifs env rest r.1
      (r2.1, r.2 ++ r2.2)

/-- Feed a sequence of raw values to `JoystickAxisMotion` on one axis. -/
def runAxisSeq (env : Env) (joystickId axis : Int) (vs : List Int) (s : ISState) :
    ISState × List Effect :=
  match vs with
  | [] => (s, [])
  | v :: rest =>
      let r := JoystickAxisMotion env joystickId axis v s
      let r2 := runAxisSeq env joystickId axis rest r.1
      (r2.1, r.2 ++ r2.2)

/-- `AudioBuf` (voice_record_sdl.cpp:27-75): a circular byte buffer;
`readPtr`/`writePtr` are offsets into `data`, byte values abstracted as
integers. -/
structure AudioBuf where
  size : Nat
  data : Nat → Int
  readPtr : Nat
  writePtr : Nat

/-- `nAvalible` as computed at voice_record_sdl.cpp:31 (for in-range
pointers the C int expression agrees with this Nat computation). -/
def AudioBuf.avail (b : AudioBuf) : Nat :=
  (b.size + b.writePtr - b.readPtr) % b.size

/-- `AudioBuf::Read` (voice_record_sdl.cpp:29-53): returns the byte count,
the bytes copied out (the two-`memcpy` split at the wrap), and the buffer
with the advanced read pointer. -/
def AudioBuf.Read (b : AudioBuf) (len : Nat) : Nat × List Int × AudioBuf :=
  let nAvailable := b.avail
  if nAvailable = 0 then (0, [], b)
  else
    let len := if len > nAvailable then nAvailable else len
    let diff := b.size - b.readPtr
    let out :=
      if len > diff then
        ((List.range diff).map fun i => b.data (b.readPtr + i))
          ++ ((List.range (len - diff)).map fun i => b.data i)
      else (List.range len).map fun i => b.data (b.readPtr + i)
    let readPtr := b.readPtr + len
    (len, out, { b with readPtr := if readPtr ≥ b.size then readPtr - b.size else readPtr })

/-- `AudioBuf::Write` (voice_record_sdl.cpp:55-69): the two-`memcpy` split
at the wrap, then the write pointer advances. -/
def AudioBuf.Write (b : AudioBuf) (inp : List Int) : AudioBuf :=
  let len := inp.length
  let diff := b.size - b.writePtr
  let data : Nat → Int := fun i =>
    if len > diff then
      if b.writePtr ≤ i ∧ i < b.size then inp.getD (i - b.writePtr) 0
      else if i < len - diff then inp.getD (diff + i) 0
      else b.data i
    else
      if b.writePtr ≤ i ∧ i < b.writePtr + len then inp.getD (i - b.writePtr) 0
      else b.data i
  let writePtr := b.writePtr + len
  { b with
      data := data
      writePtr := if writePtr ≥ b.size then writePtr - b.size else writePtr }

/-- The counting weight of an effect on the number of open gamepad
handles (the `DeviceSession`): a successful `SDL_OpenGamepad` adds one, an
`SDL_CloseGamepad` removes one. -/
def openDelta : Effect → Int
  | Effect.openGamepad _ => 1
  | Effect.closeGamepad _ => -1
  | _ => 0

/-- Number of open gamepad handles after running a trace from `c` open. -/
def runOpen (c : Int) : List Effect → Int
  | [] => c
  | a :: as => runOpen (c + openDelta a) as

/-- `true` iff the number of open gamepad handles stays at most one after
every effect of the trace, starting from `c` open. -/
def prefixLe1 (c : Int) : List Effect → Bool
  | [] => true
  | a :: as => decide (c + openDelta a ≤ 1) && prefixLe1 (c + openDelta a) as

/-- Number of gamepad handles held by the state: one iff the session slot
holds an open device. -/
def openCount (s : ISState) : Int := if s.info.hasDevice then 1 else 0

/-- Consistency of the session slot: an open device handle is never stored
under the empty id -1 (spec: `deviceId` is non-none iff the handle is a
valid open device reference). -/
def WF (s : ISState) : Prop := s.info.hasDevice = true → s.info.deviceId ≠ -1

/-- Every successful gamepad open in the trace is of device `D`. -/
def OpensOnly (D : Int) (as : List Effect) : Prop :=
  ∀ x : Int, Effect.openGamepad x ∈ as → x = D

/-- Invariant for the specific-preference policy: either the preference
`D` is still pending, or it was consumed by successfully opening `D`
(which resets `joy_active` to -1). -/
def PrefInv (D : Int) (s : ISState) : Prop :=
  s.joyActive = D ∨
    (s.joyActive = -1 ∧ s.info.deviceId = D ∧ s.info.hasDevice = true)

/-- Recognizer for haptic play commands. -/
def isPlayCmd : Effect → Bool
  | Effect.playRumble _ => true
  | _ => false

/-- Recognizer for successful gamepad opens. -/
def isOpenCmd : Effect → Bool
  | Effect.openGamepad _ => true
  | _ => false

/-- A concrete environment for witnesses: every positive id is an attached
recognized gamepad whose SDL calls all succeed; the convars hold their
defaults (`joy_axisbutton_threshold` 0.3, `joy_axis_deadzone` 0.2). -/
def defaultEnv : Env :=
  { isGamepad := fun i => decide (1 ≤ i)
    openJoystickOk := fun _ => true
    openGamepadOk := fun _ => true
    hapticOk := fun _ => true
    attached := []
    joystickOn := true
    playRumbleOk := fun _ => true
    axisButtonThreshold := 3/10
    axisDeadzone := 1/5 }

/-- A state with no open session and `joy_active` at its default -1. -/
def stateClosed : ISState :=
  { info := { deviceId := -1, hasDevice := false, hasHaptic := false,
              buttonCount := 0, rumbleEnabled := false, currentRumble := 0 }
    joyActive := -1
    joystickCount := 0
    xController := false
    ltRepeats := 0
    rtRepeats := 0
    inputState := { analogValue := fun _ => 0, analogDelta := fun _ => 0 } }

/-- A state with device 1 open (with haptics) and rumble off. -/
def stateOpen1 : ISState :=
  { info := { deviceId := 1, hasDevice := true, hasHaptic := true,
              buttonCount := sdlGamepadButtonMax, rumbleEnabled := false,
              currentRumble := 0 }
    joyActive := -1
    joystickCount := 1
    xController := true
    ltRepeats := 0
    rtRepeats := 0
    inputState := { analogValue := fun _ => 0, analogDelta := fun _ => 0 } }

/-- `stateOpen1` but with rumble currently playing at strength 1/2. -/
def stateRumble : ISState :=
  { stateOpen1 with
      info := { stateOpen1.info with rumbleEnabled := true, currentRumble := 1/2 } }

/-- `stateOpen1` but with device 3 active. -/
def stateOpen3 : ISState :=
  { stateOpen1 with info := { stateOpen1.info with deviceId := 3 } }

/-- Environment for the removal scenario: devices 3 and 5 are recognized
gamepads, device 5 is still attached, and every SDL call succeeds.  Id 0 is
not a recognized gamepad, as under SDL3, where joystick instance ids are
always positive. -/
def envC4 : Env :=
  { isGamepad := fun i => i == 3 || i == 5
    openJoystickOk := fun _ => true
    openGamepadOk := fun _ => true
    hapticOk := fun _ => true
    attached := [5]
    joystickOn := true
    playRumbleOk := fun _ => true
    axisButtonThreshold := 3/10
    axisDeadzone := 1/5 }

/-- The trigger-axis raw value sequence of the spec's trigger-synthesis
property. -/
def trigSeq : List Int := [0, 5000, 20000, 20000, 5000, 0]

/-- A closed-session state whose `joy_active` preference is device 2. -/
def statePref2 : ISState :=
  { stateClosed with joyActive := 2 }

theorem audiobuf_avail_zero_of_eq (b : AudioBuf) (h : b.writePtr = b.readPtr) :
    b.avail = 0 := by
  unfold AudioBuf.avail
  rw [h, Nat.add_sub_cancel, Nat.mod_self]

/-- C10: `AudioBuf::Read` returns at most `min(len, (size + writePtr -
readPtr) mod size)` bytes; whenever the write pointer equals the read
pointer (an exactly full buffer is indistinguishable from an empty one) it
returns 0 bytes and copies no data. -/
theorem audiobuf_read_bounded (b : AudioBuf) (len : Nat)
    (hr : b.readPtr < b.size) (hw : b.writePtr < b.size) :
    (b.Read len).1 ≤ min len b.avail ∧
    (b.writePtr = b.readPtr → (b.Read len).1 = 0 ∧ (b.Read len).2.1 = []) := by
  constructor
  · unfold AudioBuf.Read
    by_cases h : b.avail = 0
    · simp [h]
    · simp only [h, if_neg, ite_false]
      split_ifs with h2 <;> simp <;> omega
  · intro hwr
    have h0 : b.avail = 0 := audiobuf_avail_zero_of_eq b hwr
    unfold AudioBuf.Read
    simp [h0]

/-- C10 witness: a buffer of size 4 whose write pointer sits exactly on the
read pointer yields nothing. -/
theorem audiobuf_read_bounded_witness :
    (AudioBuf.Read { size := 4, data := fun i => (i : Int), readPtr := 2, writePtr := 2 } 3).1
        ≤ min 3 (AudioBuf.avail { size := 4, data := fun i => (i : Int), readPtr := 2, writePtr := 2 }) ∧
    ((2 : Nat) = 2 →
      (AudioBuf.Read { size := 4, data := fun i => (i : Int), readPtr := 2, writePtr := 2 } 3).1 = 0 ∧
      (AudioBuf.Read { size := 4, data := fun i => (i : Int), readPtr := 2, writePtr := 2 } 3).2.1 = []) :=
  audiobuf_read_bounded { size := 4, data := fun i => (i : Int), readPtr := 2, writePtr := 2 } 3
    (by decide) (by decide)

/-- C2 counterexample: with the default 0.3 threshold (raw 9830), the active
device's left-trigger sequence [0, 5000, 20000, 20000, 5000, 0] posts one
pressed event but four released events (one per at-or-below-threshold
sample), not exactly one released event. -/
theorem trigger_sequence_released_counterexample :
    (runAxisSeq defaultEnv 1 4 trigSeq stateOpen1).2.count
        (Effect.postPressed ButtonCode.xbLTrigger) = 1 ∧
    ¬ (runAxisSeq defaultEnv 1 4 trigSeq stateOpen1).2.count
        (Effect.postReleased ButtonCode.xbLTrigger) = 1 := by
  with_unfolding_all decide

/-- C2 (amended): with threshold ratio 0.3 (raw threshold `cTrunc (0.3 *
32767) = 9830`), feeding the left-trigger sequence [0, 5000, 20000, 20000,
5000, 0] for the active device posts exactly one pressed event (at the
5000 -> 20000 crossing) and exactly four released events (one at every
at-or-below-threshold sample: 0, 5000, 5000, 0), whatever the initial
repeat counter. -/
theorem trigger_sequence_one_pressed_four_released (lt : Int) :
    cTrunc ((3 : ℚ)/10 * 32767) = 9830 ∧
    (runAxisSeq defaultEnv 1 4 trigSeq { stateOpen1 with ltRepeats := lt }).2.count
        (Effect.postPressed ButtonCode.xbLTrigger) = 1 ∧
    (runAxisSeq defaultEnv 1 4 trigSeq { stateOpen1 with ltRepeats := lt }).2.count
        (Effect.postReleased ButtonCode.xbLTrigger) = 4 := by
  refine ⟨by with_unfolding_all decide, ?_, ?_⟩ <;> with_unfolding_all rfl

/-- C3 counterexample: raw button 15 has no table entry, yet
`JoystickButtonPress` posts a button event carrying the sentinel
`BUTTON_CODE_NONE` instead of dropping it. -/
theorem unmapped_button_counterexample :
    ControllerButtonToButtonCode 15 = ButtonCode.sentinel ∧
    (JoystickButtonPress 1 15 stateOpen1).2 = [Effect.postPressed ButtonCode.sentinel] ∧
    ¬ (JoystickButtonPress 1 15 stateOpen1).2 = [] := by
  with_unfolding_all decide

set_option maxHeartbeats 1000000 in
/-- C3 (amended): for every raw button outside the lookup table (0..14),
`ControllerButtonToButtonCode` returns the `BUTTON_CODE_NONE` sentinel, but
`JoystickButtonPress`/`JoystickButtonRelease` do not check for it: they
forward the sentinel code to the host event sink (only the axis path checks
its `ANALOG_CODE_INVALID` sentinel and drops the event). -/
theorem unmapped_button_forwards_sentinel (s : ISState) (j b : Int)
    (hj : s.info.deviceId = j) (hb : b < 0 ∨ 14 < b) :
    ControllerButtonToButtonCode b = ButtonCode.sentinel ∧
    (JoystickButtonPress j b s).2 = [Effect.postPressed ButtonCode.sentinel] ∧
    (JoystickButtonRelease j b s).2 = [Effect.postReleased ButtonCode.sentinel] := by
  have hsent : ControllerButtonToButtonCode b = ButtonCode.sentinel := by
    unfold ControllerButtonToButtonCode
    split_ifs <;> first | rfl | (exfalso; omega)
  refine ⟨hsent, ?_, ?_⟩
  · unfold JoystickButtonPress
    rw [if_neg (not_ne_iff.mpr hj), hsent]
  · unfold JoystickButtonRelease
    rw [if_neg (not_ne_iff.mpr hj), hsent]

/-- C3 witness: instantiation at the active device 1 and raw button 15. -/
theorem unmapped_button_forwards_sentinel_witness :
    ControllerButtonToButtonCode 15 = ButtonCode.sentinel ∧
    (JoystickButtonPress 1 15 stateOpen1).2 = [Effect.postPressed ButtonCode.sentinel] ∧
    (JoystickButtonRelease 1 15 stateOpen1).2 = [Effect.postReleased ButtonCode.sentinel] :=
  unmapped_button_forwards_sentinel stateOpen1 1 15 rfl (Or.inr (by norm_num))

/-- C4: removing the active device 3 while the recognized gamepad 5 is
still attached closes the session, but the follow-up `SearchForDevice`
(with `joy_active` at -1) only tries the literal instance id 0 - which is
never a valid SDL3 joystick instance id - so no replacement is opened: the
trace contains no successful gamepad open and the session stays empty,
even though device 5 could have been selected. -/
theorem removed_active_no_replacement_opened :
    (processNotif envC4 (Notif.removed 3) stateOpen3).1.info.deviceId = -1 ∧
    (processNotif envC4 (Notif.removed 3) stateOpen3).1.info.hasDevice = false ∧
    Effect.closeGamepad 3 ∈ (processNotif envC4 (Notif.removed 3) stateOpen3).2 ∧
    (processNotif envC4 (Notif.removed 3) stateOpen3).2.countP isOpenCmd = 0 := by
  with_unfolding_all decide

/-- C6 counterexample: with the session open with haptics, rumble already
enabled at strength 1/2, two consecutive `SetXDeviceRumble` calls both
averaging 1/2 (difference 0 < 0.01) issue zero haptic play commands, not
exactly one. -/
theorem rumble_pair_zero_commands_counterexample :
    ¬ ((SetXDeviceRumble defaultEnv (1/2) (1/2) stateRumble).2 ++
        (SetXDeviceRumble defaultEnv (1/2) (1/2)
          (SetXDeviceRumble defaultEnv (1/2) (1/2) stateRumble).1).2).countP isPlayCmd = 1 := by
  with_unfolding_all decide

/-- C6 (amended): if the session is open with haptics, the haptic-enable
setting is on, and the first call actually issues a play command at averaged
strength s1 (s1 not below 0.01 and not suppressed against the prior state),
then a second call whose averaged strength s2 is not below 0.01 and differs
from s1 by less than 0.01 is a no-op (state unchanged, no effect), so the
two calls issue exactly one haptic play command. -/
theorem rumble_redundant_second_call_noop (env : Env) (s : ISState)
    (l1 r1 l2 r2 : ℚ)
    (hdev : 0 ≤ s.info.deviceId) (hhap : s.info.hasHaptic = true)
    (hjoy : env.joystickOn = true)
    (hs1 : ¬ (l1 + r1) / 2 < 1/100)
    (hfresh : ¬ (s.info.rumbleEnabled ∧ |s.info.currentRumble - (l1 + r1) / 2| < 1/100))
    (hs2 : ¬ (l2 + r2) / 2 < 1/100)
    (hclose : |(l1 + r1) / 2 - (l2 + r2) / 2| < 1/100) :
    ((SetXDeviceRumble env l1 r1 s).2 ++
        (SetXDeviceRumble env l2 r2 (SetXDeviceRumble env l1 r1 s).1).2).countP isPlayCmd = 1 ∧
    (SetXDeviceRumble env l2 r2 (SetXDeviceRumble env l1 r1 s).1).1
        = (SetXDeviceRumble env l1 r1 s).1 ∧
    (SetXDeviceRumble env l2 r2 (SetXDeviceRumble env l1 r1 s).1).2 = [] := by
  have hguard : ¬ (s.info.deviceId < 0 ∨ ¬ s.info.hasHaptic) := by
    rintro (h | h)
    · omega
    · exact h hhap
  have hstop1 : ¬ ((l1 + r1) / 2 < 1/100 ∨ ¬ env.joystickOn) := by
    rintro (h | h)
    · exact hs1 h
    · exact h hjoy
  have h1 : SetXDeviceRumble env l1 r1 s =
      ({ s with info := { s.info with
                            rumbleEnabled := true
                            currentRumble := (l1 + r1) / 2 } },
       Effect.playRumble ((l1 + r1) / 2) ::
         (if env.playRumbleOk ((l1 + r1) / 2) then [] else [Effect.logMsg])) := by
    unfold SetXDeviceRumble
    rw [if_neg hguard, if_neg hstop1, if_neg hfresh]
  have hstop2 : ¬ ((l2 + r2) / 2 < 1/100 ∨ ¬ env.joystickOn) := by
    rintro (h | h)
    · exact hs2 h
    · exact h hjoy
  have h2 : SetXDeviceRumble env l2 r2 (SetXDeviceRumble env l1 r1 s).1
      = ((SetXDeviceRumble env l1 r1 s).1, []) := by
    rw [h1]
    unfold SetXDeviceRumble
    rw [if_neg (show ¬ _ from hguard), if_neg hstop2, if_pos ⟨rfl, hclose⟩]
  refine ⟨?_, by rw [h2], by rw [h2]⟩
  rw [h2, h1]
  by_cases hp : env.playRumbleOk ((l1 + r1) / 2) = true
  · simp [hp, isPlayCmd]
  · simp [hp, isPlayCmd]

theorem setRepeats_info (s : ISState) (b : ButtonCode) (n : Int) :
    (setRepeats s b n).info = s.info := by
  unfold setRepeats
  split_ifs <;> rfl

theorem setRepeats_inputState (s : ISState) (b : ButtonCode) (n : Int) :
    (setRepeats s b n).inputState = s.inputState := by
  unfold setRepeats
  split_ifs <;> rfl

theorem triggerButtonStep_info (t v : Int) (b : ButtonCode) (s : ISState) :
    (triggerButtonStep t v b s).1.info = s.info := by
  simp only [triggerButtonStep]
  split_ifs <;> exact setRepeats_info s b _

theorem triggerButtonStep_inputState (t v : Int) (b : ButtonCode) (s : ISState) :
    (triggerButtonStep t v b s).1.inputState = s.inputState := by
  simp only [triggerButtonStep]
  split_ifs <;> exact setRepeats_inputState s b _

theorem analogUpdate_val (code : AnalogCode) (v : Int) (p : ISState × List Effect) :
    (analogUpdate code v p).1.inputState.analogValue code = v ∧
    (analogUpdate code v p).1.inputState.analogDelta code
      = v - p.1.inputState.analogValue code ∧
    (analogUpdate code v p).1.info = p.1.info := by
  simp only [analogUpdate]
  split_ifs <;> simp

theorem axisMotion_trigger4 (env : Env) (j v : Int) (s : ISState)
    (hj : s.info.deviceId = j) :
    JoystickAxisMotion env j 4 v s =
      analogUpdate AnalogCode.joyAxisZ (effectiveValue env.axisDeadzone v)
        (triggerButtonStep (cTrunc (env.axisButtonThreshold * 32767)) v
          ButtonCode.xbLTrigger s) := by
  unfold JoystickAxisMotion
  rw [if_neg (not_ne_iff.mpr hj)]
  rfl

theorem axisMotion_trigger5 (env : Env) (j v : Int) (s : ISState)
    (hj : s.info.deviceId = j) :
    JoystickAxisMotion env j 5 v s =
      analogUpdate AnalogCode.joyAxisZ (effectiveValue env.axisDeadzone v)
        (triggerButtonStep (cTrunc (env.axisButtonThreshold * 32767)) v
          ButtonCode.xbRTrigger s) := by
  unfold JoystickAxisMotion
  rw [if_neg (not_ne_iff.mpr hj)]
  rfl

/-- C9: both trigger axes map to the shared `JOY_AXIS_Z` channel, so two
consecutive trigger motions (left with raw `v1`, then right with raw `v2`)
on the active device write one per-channel value: the second stores a delta
computed across the two physical triggers. -/
theorem triggers_share_axis_z_channel (env : Env) (s : ISState) (j v1 v2 : Int)
    (hj : s.info.deviceId = j) :
    ControllerAxisToAnalogCode 4 = some AnalogCode.joyAxisZ ∧
    ControllerAxisToAnalogCode 5 = some AnalogCode.joyAxisZ ∧
    (JoystickAxisMotion env j 4 v1 s).1.inputState.analogValue AnalogCode.joyAxisZ
      = effectiveValue env.axisDeadzone v1 ∧
    (JoystickAxisMotion env j 5 v2
        (JoystickAxisMotion env j 4 v1 s).1).1.inputState.analogDelta AnalogCode.joyAxisZ
      = effectiveValue env.axisDeadzone v2 - effectiveValue env.axisDeadzone v1 := by
  have h4 := axisMotion_trigger4 env j v1 s hj
  have hval1 : (JoystickAxisMotion env j 4 v1 s).1.inputState.analogValue AnalogCode.joyAxisZ
      = effectiveValue env.axisDeadzone v1 := by
    rw [h4]
    exact (analogUpdate_val _ _ _).1
  have hinfo1 : (JoystickAxisMotion env j 4 v1 s).1.info = s.info := by
    rw [h4]
    exact ((analogUpdate_val _ _ _).2.2).trans (triggerButtonStep_info _ _ _ _)
  have hj2 : (JoystickAxisMotion env j 4 v1 s).1.info.deviceId = j := by
    rw [hinfo1, hj]
  have h5 := axisMotion_trigger5 env j v2 (JoystickAxisMotion env j 4 v1 s).1 hj2
  refine ⟨rfl, rfl, hval1, ?_⟩
  rw [h5]
  have := (analogUpdate_val AnalogCode.joyAxisZ (effectiveValue env.axisDeadzone v2)
    (triggerButtonStep (cTrunc (env.axisButtonThreshold * 32767)) v2
      ButtonCode.xbRTrigger (JoystickAxisMotion env j 4 v1 s).1)).2.1
  rw [this, triggerButtonStep_inputState, hval1]

/-- C9 witness: at the active device 1 with raw values 20000 and 8000. -/
theorem triggers_share_axis_z_channel_witness :
    ControllerAxisToAnalogCode 4 = some AnalogCode.joyAxisZ ∧
    ControllerAxisToAnalogCode 5 = some AnalogCode.joyAxisZ ∧
    (JoystickAxisMotion defaultEnv 1 4 20000 stateOpen1).1.inputState.analogValue AnalogCode.joyAxisZ
      = effectiveValue defaultEnv.axisDeadzone 20000 ∧
    (JoystickAxisMotion defaultEnv 1 5 8000
        (JoystickAxisMotion defaultEnv 1 4 20000 stateOpen1).1).1.inputState.analogDelta AnalogCode.joyAxisZ
      = effectiveValue defaultEnv.axisDeadzone 8000 - effectiveValue defaultEnv.axisDeadzone 20000 :=
  triggers_share_axis_z_channel defaultEnv stateOpen1 1 20000 8000 rfl

theorem removed_mismatch (t : ISState) (j : Int) (h : t.info.deviceId ≠ j) :
    JoystickHotplugRemoved j t = (t, [Effect.logMsg]) := by
  unfold JoystickHotplugRemoved
  rw [if_pos h]

theorem isstate_set_deviceId_self (t : ISState) (h : t.info.deviceId = -1) :
    ({ t with info := { t.info with deviceId := -1 } } : ISState) = t := by
  obtain ⟨⟨d, hd, hh, bc, re, cr⟩, ja, jc, xc, lr, rr, inp⟩ := t
  change d = -1 at h
  subst h
  rfl

theorem removed_null (t : ISState) (id : Int) (hid : t.info.deviceId = id)
    (hdev : t.info.hasDevice = false) :
    JoystickHotplugRemoved id t =
      (({ t with info := { t.info with deviceId := -1 } } : ISState),
       [Effect.logMsg]) := by
  unfold JoystickHotplugRemoved
  rw [if_neg (not_ne_iff.mpr hid), if_pos (by rw [hdev]; exact Bool.false_ne_true)]

theorem removed_match (s : ISState) (id : Int)
    (hid : s.info.deviceId = id) (hdev : s.info.hasDevice = true) :
    JoystickHotplugRemoved id s =
      ({ s with
          joystickCount := 0
          xController := false
          info := { s.info with
                      hasHaptic := false
                      hasDevice := false
                      buttonCount := 0
                      deviceId := -1
                      rumbleEnabled := false } },
       [Effect.enableInput false, Effect.closeHaptic, Effect.closeGamepad id,
        Effect.logMsg]) := by
  unfold JoystickHotplugRemoved
  rw [if_neg (not_ne_iff.mpr hid), if_neg (not_not_intro hdev)]

/-- C7: a removal notification matching the open session closes it (haptic
and gamepad handles closed, fields reset); delivering the same notification
again is a no-op that only logs; and any removal notification whose id is
not the current session id leaves the whole state unchanged. -/
theorem hotplug_removed_idempotent (s : ISState) (id : Int)
    (hid : s.info.deviceId = id) (hdev : s.info.hasDevice = true) :
    ((JoystickHotplugRemoved id s).1.info.deviceId = -1 ∧
     (JoystickHotplugRemoved id s).1.info.hasDevice = false ∧
     (JoystickHotplugRemoved id s).1.info.hasHaptic = false ∧
     (JoystickHotplugRemoved id s).1.info.rumbleEnabled = false ∧
     Effect.closeHaptic ∈ (JoystickHotplugRemoved id s).2 ∧
     Effect.closeGamepad id ∈ (JoystickHotplugRemoved id s).2) ∧
    ((JoystickHotplugRemoved id (JoystickHotplugRemoved id s).1).1
        = (JoystickHotplugRemoved id s).1 ∧
     Effect.closeGamepad id ∉ (JoystickHotplugRemoved id (JoystickHotplugRemoved id s).1).2 ∧
     Effect.closeHaptic ∉ (JoystickHotplugRemoved id (JoystickHotplugRemoved id s).1).2) ∧
    (∀ (t : ISState) (j : Int), t.info.deviceId ≠ j →
        JoystickHotplugRemoved j t = (t, [Effect.logMsg])) := by
  have h1 := removed_match s id hid hdev
  refine ⟨?_, ?_, fun t j h => removed_mismatch t j h⟩
  · rw [h1]
    refine ⟨rfl, rfl, rfl, rfl, ?_, ?_⟩ <;> simp
  · have hid1 : (JoystickHotplugRemoved id s).1.info.deviceId = -1 := by
      rw [h1]
    have hdev1 : (JoystickHotplugRemoved id s).1.info.hasDevice = false := by
      rw [h1]
    by_cases hcase : id = -1
    · subst hcase
      have h2 := removed_null (JoystickHotplugRemoved (-1) s).1 (-1) hid1 hdev1
      rw [h2, isstate_set_deviceId_self _ hid1]
      refine ⟨rfl, ?_, ?_⟩ <;> simp
    · have h2 : JoystickHotplugRemoved id (JoystickHotplugRemoved id s).1 =
          ((JoystickHotplugRemoved id s).1, [Effect.logMsg]) :=
        removed_mismatch _ id (by rw [hid1]; exact fun hc => hcase hc.symm)
      rw [h2]
      refine ⟨rfl, ?_, ?_⟩ <;> simp

/-- C7 witness: instantiation at the open session for device 1. -/
theorem hotplug_removed_idempotent_witness :
    ((JoystickHotplugRemoved 1 stateOpen1).1.info.deviceId = -1 ∧
     (JoystickHotplugRemoved 1 stateOpen1).1.info.hasDevice = false ∧
     (JoystickHotplugRemoved 1 stateOpen1).1.info.hasHaptic = false ∧
     (JoystickHotplugRemoved 1 stateOpen1).1.info.rumbleEnabled = false ∧
     Effect.closeHaptic ∈ (JoystickHotplugRemoved 1 stateOpen1).2 ∧
     Effect.closeGamepad 1 ∈ (JoystickHotplugRemoved 1 stateOpen1).2) ∧
    ((JoystickHotplugRemoved 1 (JoystickHotplugRemoved 1 stateOpen1).1).1
        = (JoystickHotplugRemoved 1 stateOpen1).1 ∧
     Effect.closeGamepad 1 ∉ (JoystickHotplugRemoved 1 (JoystickHotplugRemoved 1 stateOpen1).1).2 ∧
     Effect.closeHaptic ∉ (JoystickHotplugRemoved 1 (JoystickHotplugRemoved 1 stateOpen1).1).2) ∧
    (∀ (t : ISState) (j : Int), t.info.deviceId ≠ j →
        JoystickHotplugRemoved j t = (t, [Effect.logMsg])) :=
  hotplug_removed_idempotent stateOpen1 1 rfl rfl

theorem removed_no_open (x id : Int) (s : ISState) :
    Effect.openGamepad x ∉ (JoystickHotplugRemoved id s).2 := by
  unfold JoystickHotplugRemoved
  split_ifs <;> simp

/-- C8: whenever `JoystickHotplugAdded` successfully opens a gamepad, it
resets the `joy_active` selection preference to -1 regardless of its
previous value, so a specific-device preference governs at most the
activation that consumes it. -/
theorem successful_open_resets_joy_active (env : Env) (c : Int) (s : ISState)
    (h : Effect.openGamepad c ∈ (JoystickHotplugAdded env c s).2) :
    (JoystickHotplugAdded env c s).1.joyActive = -1 := by
  unfold JoystickHotplugAdded hotplugOpen at h ⊢
  split_ifs at h ⊢ <;>
    first
      | rfl
      | (exfalso; simp [probeActs, removed_no_open] at h)

/-- C8 witness: opening device 1 from the closed state resets `joy_active`. -/
theorem successful_open_resets_joy_active_witness :
    (JoystickHotplugAdded defaultEnv 1 stateClosed).1.joyActive = -1 :=
  successful_open_resets_joy_active defaultEnv 1 stateClosed (by decide)

/-- C6 witness: from a session with rumble off, play at 1/2 then at
101/200 (difference 1/200 < 1/100): one play command, second call a no-op. -/
theorem rumble_redundant_second_call_noop_witness :
    ((SetXDeviceRumble defaultEnv (1/2) (1/2) stateOpen1).2 ++
        (SetXDeviceRumble defaultEnv (101/200) (101/200)
          (SetXDeviceRumble defaultEnv (1/2) (1/2) stateOpen1).1).2).countP isPlayCmd = 1 ∧
    (SetXDeviceRumble defaultEnv (101/200) (101/200)
        (SetXDeviceRumble defaultEnv (1/2) (1/2) stateOpen1).1).1
      = (SetXDeviceRumble defaultEnv (1/2) (1/2) stateOpen1).1 ∧
    (SetXDeviceRumble defaultEnv (101/200) (101/200)
        (SetXDeviceRumble defaultEnv (1/2) (1/2) stateOpen1).1).2 = [] :=
  rumble_redundant_second_call_noop defaultEnv stateOpen1 (1/2) (1/2) (101/200) (101/200)
    (by decide) rfl rfl
    (by with_unfolding_all decide)
    (by with_unfolding_all decide)
    (by with_unfolding_all decide)
    (by with_unfolding_all decide)

theorem removed_joyActive (id : Int) (s : ISState) :
    (JoystickHotplugRemoved id s).1.joyActive = s.joyActive := by
  unfold JoystickHotplugRemoved
  split_ifs <;> rfl

theorem added_pref_step (env : Env) (D c : Int) (s : ISState) (hD : 0 ≤ D)
    (hP : PrefInv D s) :
    PrefInv D (JoystickHotplugAdded env c s).1 ∧
    OpensOnly D (JoystickHotplugAdded env c s).2 := by
  rcases hP with hpref | ⟨hja, hdev, hopen⟩
  · unfold JoystickHotplugAdded hotplugOpen
    split_ifs with h1 h2 h3 h4 h5 h6 h7 h8 <;>
      first
        | exact ⟨Or.inl hpref,
            fun x hx => by simp [probeActs, removed_no_open] at hx⟩
        | exact ⟨Or.inl ((removed_joyActive s.info.deviceId s).trans hpref),
            fun x hx => by simp [probeActs, removed_no_open] at hx⟩
        | (refine ⟨Or.inr ⟨rfl, ?_, rfl⟩, fun x hx => ?_⟩
           · show c = D
             omega
           · simp [probeActs, removed_no_open] at hx
             omega)
  · unfold JoystickHotplugAdded hotplugOpen
    split_ifs with h1 h2 h3 h4 h5 h6 h7 h8 <;>
      first
        | exact ⟨Or.inr ⟨hja, hdev, hopen⟩,
            fun x hx => by simp [probeActs] at hx⟩
        | exact absurd ⟨by omega, by omega⟩ h3

theorem runAdds_pref (env : Env) (D : Int) (hD : 0 ≤ D) :
    ∀ (ids : List Int) (s : ISState), PrefInv D s →
      PrefInv D (runNotifs env (ids.map Notif.added) s).1 ∧
      OpensOnly D (runNotifs env (ids.map Notif.added) s).2 := by
  intro ids
  induction ids with
  | nil =>
      intro s hP
      exact ⟨hP, fun x hx => by simp [runNotifs] at hx⟩
  | cons c rest ih =>
      intro s hP
      have hstep := added_pref_step env D c s hD hP
      have hrest := ih (JoystickHotplugAdded env c s).1 hstep.1
      constructor
      · simpa [runNotifs, processNotif] using hrest.1
      · intro x hx
        simp only [List.map_cons, runNotifs, processNotif, List.mem_append] at hx
        rcases hx with hx | hx
        · exact hstep.2 x hx
        · exact hrest.2 x hx

/-- C5: with the selection preference set to a specific device D, an attach
notification for any other candidate never changes the state (it only
logs), and over every sequence of attach notifications every gamepad open
in the trace is of device D. -/
theorem specific_preference_opens_only_that_device (env : Env) (D : Int)
    (s : ISState) (ids : List Int) (hD : 0 ≤ D) (hpref : s.joyActive = D) :
    (∀ c : Int, c ≠ D → (JoystickHotplugAdded env c s).1 = s) ∧
    OpensOnly D (runNotifs env (ids.map Notif.added) s).2 := by
  constructor
  · intro c hc
    unfold JoystickHotplugAdded hotplugOpen
    split_ifs <;> first | rfl | (exfalso; omega)
  · exact (runAdds_pref env D hD ids s (Or.inl hpref)).2

/-- C5 witness: preference 2 over the attach sequence [1, 2, 3]. -/
theorem specific_preference_opens_only_that_device_witness :
    (∀ c : Int, c ≠ 2 → (JoystickHotplugAdded defaultEnv c statePref2).1 = statePref2) ∧
    OpensOnly 2 (runNotifs defaultEnv ([1, 2, 3].map Notif.added) statePref2).2 :=
  specific_preference_opens_only_that_device defaultEnv 2 statePref2 [1, 2, 3]
    (by decide) rfl

theorem runOpen_append (c : Int) (as bs : List Effect) :
    runOpen c (as ++ bs) = runOpen (runOpen c as) bs := by
  induction as generalizing c with
  | nil => rfl
  | cons a t ih => simp [runOpen, ih]

theorem prefixLe1_append (c : Int) (as bs : List Effect) :
    prefixLe1 c (as ++ bs) = (prefixLe1 c as && prefixLe1 (runOpen c as) bs) := by
  induction as generalizing c with
  | nil => rfl
  | cons a t ih => simp [prefixLe1, runOpen, ih, Bool.and_assoc]

theorem openCount_le_one (s : ISState) : openCount s ≤ 1 := by
  unfold openCount
  split_ifs <;> omega

theorem openCount_nonneg (s : ISState) : 0 ≤ openCount s := by
  unfold openCount
  split_ifs <;> omega

theorem wf_closed (s : ISState) (hwf : WF s) (h : s.info.deviceId = -1) :
    s.info.hasDevice = false := by
  cases hd : s.info.hasDevice
  · rfl
  · exact absurd h (hwf hd)

theorem removed_wf (id : Int) (s : ISState) (hwf : WF s) :
    WF (JoystickHotplugRemoved id s).1 := by
  unfold JoystickHotplugRemoved
  split_ifs with h1 h2 <;>
    first
      | exact hwf
      | (intro hd; exact absurd hd h2)
      | (intro hd; simp at hd)

theorem removed_self_closed (s : ISState) :
    (JoystickHotplugRemoved s.info.deviceId s).1.info.hasDevice = false := by
  unfold JoystickHotplugRemoved
  rw [if_neg (not_not_intro rfl)]
  split_ifs with h <;> first | rfl | simpa using h

theorem removed_count (id : Int) (s : ISState) :
    prefixLe1 (openCount s) (JoystickHotplugRemoved id s).2 = true ∧
    runOpen (openCount s) (JoystickHotplugRemoved id s).2
      = openCount (JoystickHotplugRemoved id s).1 := by
  have hle := openCount_le_one s
  have hnn := openCount_nonneg s
  unfold JoystickHotplugRemoved
  split_ifs with h1 h2
  · constructor
    · simp only [prefixLe1, openDelta]
      norm_num
      omega
    · simp [runOpen, openDelta]
  · constructor
    · simp [prefixLe1, openDelta, openCount, h2]
    · simp [runOpen, openDelta, openCount, h2]
  · have hd : s.info.hasDevice = false := by simpa using h2
    constructor
    · simp only [prefixLe1, openDelta]
      norm_num
      omega
    · simp [runOpen, openDelta, openCount, hd]

theorem hotplugOpen_wf (env : Env) (c : Int) (p : ISState × List Effect)
    (hwfp : WF p.1) (hc : c ≠ -1) :
    WF (hotplugOpen env c p).1 := by
  unfold hotplugOpen
  split_ifs with h hh <;>
    first
      | (intro hd; exact hc)
      | exact hwfp

theorem hotplugOpen_count (env : Env) (c : Int) (p : ISState × List Effect) (c0 : Int)
    (hpre : prefixLe1 c0 p.2 = true)
    (hrun : runOpen c0 p.2 = 0)
    (hz : openCount p.1 = 0)
    (hc0le : c0 ≤ 1) :
    prefixLe1 c0 (hotplugOpen env c p).2 = true ∧
    runOpen c0 (hotplugOpen env c p).2 = openCount (hotplugOpen env c p).1 := by
  unfold hotplugOpen
  split_ifs with h hh <;>
    constructor <;>
      simp [prefixLe1_append, runOpen_append, prefixLe1, runOpen, openDelta, probeActs,
            hpre, hrun, hz, openCount]
  all_goals first | exact hc0le | exact hz.symm

theorem added_count (env : Env) (c : Int) (s : ISState)
    (hwf : WF s) (hsdl : env.isGamepad (-1) = false) :
    prefixLe1 (openCount s) (JoystickHotplugAdded env c s).2 = true ∧
    runOpen (openCount s) (JoystickHotplugAdded env c s).2
      = openCount (JoystickHotplugAdded env c s).1 ∧
    WF (JoystickHotplugAdded env c s).1 := by
  have hle := openCount_le_one s
  have hnn := openCount_nonneg s
  unfold JoystickHotplugAdded
  split_ifs with h1 h2 h3 h4 h5 h6 <;>
    first
      | exact ⟨by simp [prefixLe1, openDelta, probeActs] <;> omega,
               by simp [runOpen, openDelta, probeActs],
               hwf⟩
      | (have hcne : c ≠ -1 := by
           intro hceq
           rw [hceq, hsdl] at h1
           exact absurd h1 (by decide)
         obtain ⟨r1, r2⟩ := removed_count s.info.deviceId s
         have hz : openCount (JoystickHotplugRemoved s.info.deviceId s).1 = 0 := by
           simp [openCount, removed_self_closed]
         obtain ⟨p1, p2⟩ :=
           hotplugOpen_count env c (JoystickHotplugRemoved s.info.deviceId s)
             (openCount s) r1 (r2.trans hz) hz hle
         exact ⟨p1, p2, hotplugOpen_wf env c _ (removed_wf _ _ hwf) hcne⟩)
      | (have hcne : c ≠ -1 := by
           intro hceq
           rw [hceq, hsdl] at h1
           exact absurd h1 (by decide)
         have hdz : s.info.hasDevice = false := wf_closed s hwf (by omega)
         have hz : openCount s = 0 := by simp [openCount, hdz]
         obtain ⟨p1, p2⟩ :=
           hotplugOpen_count env c (s, []) (openCount s) rfl hz hz hle
         exact ⟨p1, p2, hotplugOpen_wf env c (s, []) hwf hcne⟩)

theorem searchLoop_count (env : Env) (hsdl : env.isGamepad (-1) = false) :
    ∀ (ids : List Int) (s : ISState), WF s →
      prefixLe1 (openCount s) (searchLoop env ids s).2 = true ∧
      runOpen (openCount s) (searchLoop env ids s).2
        = openCount (searchLoop env ids s).1 ∧
      WF (searchLoop env ids s).1 := by
  intro ids
  induction ids with
  | nil =>
      intro s hwf
      exact ⟨rfl, rfl, hwf⟩
  | cons i rest ih =>
      intro s hwf
      by_cases hop : env.openJoystickOk i = true
      · obtain ⟨a1, a2, a3⟩ := added_count env i s hwf hsdl
        obtain ⟨b1, b2, b3⟩ := ih (JoystickHotplugAdded env i s).1 a3
        have hshape : searchLoop env (i :: rest) s =
            ((searchLoop env rest (JoystickHotplugAdded env i s).1).1,
             Effect.openJoystickProbe i :: (JoystickHotplugAdded env i s).2
               ++ (searchLoop env rest (JoystickHotplugAdded env i s).1).2) := by
          simp only [searchLoop]
          rw [if_pos hop]
        rw [hshape]
        refine ⟨?_, ?_, b3⟩
        · simp [prefixLe1, openDelta, prefixLe1_append, runOpen_append, a1, a2, b1]
          have := openCount_le_one s
          omega
        · simp [runOpen, openDelta, runOpen_append, a2, b2]
      · have hshape : searchLoop env (i :: rest) s = searchLoop env rest s := by
          simp only [searchLoop]
          rw [if_neg hop]
        rw [hshape]
        exact ih s hwf

theorem search_count (env : Env) (s : ISState)
    (hwf : WF s) (hsdl : env.isGamepad (-1) = false) :
    prefixLe1 (openCount s) (SearchForDevice env s).2 = true ∧
    runOpen (openCount s) (SearchForDevice env s).2
      = openCount (SearchForDevice env s).1 ∧
    WF (SearchForDevice env s).1 := by
  unfold SearchForDevice
  split_ifs with h
  · exact added_count env 0 s hwf hsdl
  · exact searchLoop_count env hsdl env.attached s hwf

theorem processNotif_count (env : Env) (n : Notif) (s : ISState)
    (hwf : WF s) (hsdl : env.isGamepad (-1) = false) :
    prefixLe1 (openCount s) (processNotif env n s).2 = true ∧
    runOpen (openCount s) (processNotif env n s).2
      = openCount (processNotif env n s).1 ∧
    WF (processNotif env n s).1 := by
  cases n with
  | added id => exact added_count env id s hwf hsdl
  | removed id =>
      obtain ⟨r1, r2⟩ := removed_count id s
      have rwf := removed_wf id s hwf
      obtain ⟨s1, s2, s3⟩ := search_count env (JoystickHotplugRemoved id s).1 rwf hsdl
      refine ⟨?_, ?_, s3⟩
      · simp [processNotif, prefixLe1_append, runOpen_append, r1, r2, s1]
      · simp [processNotif, runOpen_append, r2, s2]

theorem runNotifs_count (env : Env) (hsdl : env.isGamepad (-1) = false) :
    ∀ (ns : List Notif) (s : ISState), WF s →
      prefixLe1 (openCount s) (runNotifs env ns s).2 = true ∧
      runOpen (openCount s) (runNotifs env ns s).2
        = openCount (runNotifs env ns s).1 ∧
      WF (runNotifs env ns s).1 := by
  intro ns
  induction ns with
  | nil =>
      intro s hwf
      exact ⟨rfl, rfl, hwf⟩
  | cons n rest ih =>
      intro s hwf
      obtain ⟨a1, a2, a3⟩ := processNotif_count env n s hwf hsdl
      obtain ⟨b1, b2, b3⟩ := ih (processNotif env n s).1 a3
      refine ⟨?_, ?_, ?_⟩
      · simp [runNotifs, prefixLe1_append, runOpen_append, a1, a2, b1]
      · simp [runNotifs, runOpen_append, a2, b2]
      · simpa [runNotifs] using b3

/-- C1: over every sequence of attach/detach notifications, at most one
gamepad session is open at any point: starting from a consistent state
(an open handle never sits under the empty id; SDL never reports -1 as a
gamepad instance id), the running count of open gamepad handles stays at
most one after every effect of the trace, and it ends exactly at the
number held by the final session slot - so an open session with a
different id is always fully closed before a new gamepad handle is
opened. -/
theorem hotplug_at_most_one_open_session (env : Env) (s : ISState)
    (ns : List Notif) (hwf : WF s) (hsdl : env.isGamepad (-1) = false) :
    prefixLe1 (openCount s) (runNotifs env ns s).2 = true ∧
    runOpen (openCount s) (runNotifs env ns s).2
      = openCount (runNotifs env ns s).1 :=
  ⟨(runNotifs_count env hsdl ns s hwf).1, (runNotifs_count env hsdl ns s hwf).2.1⟩

/-- C1 witness: attach devices 1 and 2 then detach both, from the closed
state. -/
theorem hotplug_at_most_one_open_session_witness :
    prefixLe1 (openCount stateClosed)
      (runNotifs defaultEnv
        [Notif.added 1, Notif.added 2, Notif.removed 1, Notif.removed 2]
        stateClosed).2 = true ∧
    runOpen (openCount stateClosed)
      (runNotifs defaultEnv
        [Notif.added 1, Notif.added 2, Notif.removed 1, Notif.removed 2]
        stateClosed).2
      = openCount (runNotifs defaultEnv
          [Notif.added 1, Notif.added 2, Notif.removed 1, Notif.removed 2]
          stateClosed).1 :=
  hotplug_at_most_one_open_session defaultEnv stateClosed
    [Notif.added 1, Notif.added 2, Notif.removed 1, Notif.removed 2]
    (by unfold WF; decide) rfl
